import Mathlib

/-!
Shallow embedding of the sw-linux-tools mod build scripts
(src/build_mod.py, src/compile_mod.py, src/env_config.py, src/constants.py).

Filesystem state is abstracted as query functions (structure `FS`), external
tool behaviour as explicit oracle parameters, and Python exceptions as
`Except String` errors.  The Python string primitives the scripts rely on
(`str.endswith`, `str.replace`, `os.path.dirname`) are modelled on
`List Char` / `String`.
-/

/-- Python `s.endswith(suffix)`. -/
def strEndsWith (s suffix : String) : Bool :=
  suffix.toList.isSuffixOf s.toList

/-- `pre` is a string prefix of `s`; used to model which paths live inside a
directory tree for `shutil.rmtree`. -/
def strIsPrefixOf (pre s : String) : Bool :=
  pre.toList.isPrefixOf s.toList

/-- Index of the first occurrence of a character in a character list. -/
def findIdxC (c : Char) : List Char → Option Nat
  | [] => none
  | x :: xs => if x = c then some 0 else (findIdxC c xs).map (fun n => n + 1)

/-- Index of the last occurrence of a character (Python `str.rfind`). -/
def rfind_char (c : Char) (cs : List Char) : Option Nat :=
  match findIdxC c cs.reverse with
  | none => none
  | some k => some (cs.length - 1 - k)

/-- Python `os.path.dirname` with posixpath semantics: everything up to the
last `/`, with trailing slashes stripped unless the head is all slashes. -/
def dirname (s : String) : String :=
  let cs := s.toList
  match rfind_char '/' cs with
  | none => ""
  | some k =>
    let head := cs.take (k + 1)
    if head.all (fun c => c = '/') then String.mk head
    else String.mk ((head.reverse.dropWhile (fun c => c = '/')).reverse)

/-- The spec's notion of the base name of a file name: the name minus its
extension (the part after the last dot).  Stated from the spec's words only,
for comparison with the code's `str.replace`-based matching; the source code
never computes this. -/
def base_name (s : String) : String :=
  match rfind_char '.' s.toList with
  | none => s
  | some k => String.mk (s.toList.take k)

/-- Fuel-indexed core of Python `str.replace`: scan left to right, replace
each non-overlapping occurrence of `old`, resume scanning after the
replacement.  Fuel `s.length` suffices for a nonempty pattern. -/
def pyReplaceAux (old new : List Char) : Nat → List Char → List Char
  | 0, s => s
  | _ + 1, [] => []
  | fuel + 1, c :: rest =>
    if old.isPrefixOf (c :: rest) then
      new ++ pyReplaceAux old new fuel ((c :: rest).drop old.length)
    else
      c :: pyReplaceAux old new fuel rest

/-- Python `s.replace(old, new)` on character lists.  The scripts only ever
call it with the nonempty patterns `".xml"` / `".dae"`, for which the fuel
`s.length` is exact. -/
def pyReplaceL (s old new : List Char) : List Char :=
  pyReplaceAux old new s.length s

/-- Python `s.replace(old, new)` on strings. -/
def pyReplaceStr (s old new : String) : String :=
  String.mk (pyReplaceL s.toList old.toList new.toList)

/-- Abstraction of the filesystem the scripts query: `isFile`/`isDir` mirror
`Path.is_file`/`Path.is_dir`, and `listdir` mirrors `os.listdir`, with `none`
standing for the `FileNotFoundError` a listing of a missing directory raises. -/
structure FS where
  isFile : String → Bool
  isDir : String → Bool
  listdir : String → Option (List String)

/-- `os.listdir` as an `Except`: raises `FileNotFoundError` when the
directory is absent. -/
def os_listdir (fs : FS) (path : String) : Except String (List String) :=
  match fs.listdir path with
  | some l => Except.ok l
  | none => Except.error "FileNotFoundError"

/-- The `Config` dataclass of src/build_mod.py (lines 28-36). -/
structure Config where
  project_path : String
  output_path : String
  build_name : String
  legacy_meshes_dir : Option String
  legacy_audio_dir : Option String
  legacy_definitions_dir : Option String

/-- `ModBuilder._verify_paths` (src/build_mod.py lines 84-94): returns `true`
when verification passes (no `sys.exit(1)`).  Checks `mod.xml` and `mod.png`
under the project path; the data-directory branch of the source tests
`Path().is_dir()`, i.e. whether `"."` is a directory, not the computed
`data_path`, which is translated literally here. -/
def verify_paths (fs : FS) (project_path : String) : Bool :=
  fs.isFile (project_path ++ "/mod.xml") &&
  fs.isFile (project_path ++ "/mod.png") &&
  fs.isDir "."

/-- `ModBuilder.__init__`: the scratch tree path keyed by build name
(src/build_mod.py line 82). -/
def build_cache_path (build_name : String) : String :=
  "/tmp/sw-mod-builder/" ++ build_name

/-- The directory predicate after `shutil.rmtree(path)`: the tree rooted at
`path` is gone, everything else unchanged. -/
def rmtree_state (isDir : String → Bool) (path : String) : String → Bool :=
  fun q => if q == path || strIsPrefixOf (path ++ "/") q then false else isDir q

/-- `shutil.rmtree`: removes the tree, or raises `FileNotFoundError` when the
path does not exist. -/
def rmtree (isDir : String → Bool) (path : String) : Except String (String → Bool) :=
  if isDir path then Except.ok (rmtree_state isDir path) else Except.error "FileNotFoundError"

/-- `ModBuilder._clear_build_cache` (src/build_mod.py lines 96-98): remove the
scratch tree only if it exists. -/
def clear_build_cache (isDir : String → Bool) (build_name : String) :
    Except String (String → Bool) :=
  if isDir (build_cache_path build_name) then rmtree isDir (build_cache_path build_name)
  else Except.ok isDir

/-- What one run of `ModBuilder._build_legacy` (src/build_mod.py lines
126-157) does, per category: which source directory was used, which files
were handed to the mesh compiler, which output directories were created and
which files were copied.  `_copy_assets` copies the files of the source
listing whose names end in the given suffix. -/
structure LegacyResult where
  meshesSource : Option String
  meshesCompiled : List String
  meshesTargetDir : Option String
  audioTargetDir : Option String
  audioCopied : List String
  defsTargetDir : Option String
  defsCopied : List String
deriving DecidableEq

/-- `ModBuilder._build_legacy`: each category keys off the fixed directories
`<project>/src/legacy/{meshes,audio,definitions}` (lines 127, 149, 154); the
`legacy_*_dir` fields of the config are never read.  A category whose fixed
source directory is absent is skipped (no output directory, no copies).
The suffix filters `"mesh"`, `"ogg"`, `"xml"` are the `filetype` arguments of
the `_copy_assets` calls (lines 147, 152, 157). -/
def build_legacy (fs : FS) (config : Config) : LegacyResult :=
  let legacy_meshes_dir := config.project_path ++ "/src/legacy/meshes"
  let legacy_audio_dir := config.project_path ++ "/src/legacy/audio"
  let legacy_definitions_dir := config.project_path ++ "/src/legacy/definitions"
  let m := fs.isDir legacy_meshes_dir
  let a := fs.isDir legacy_audio_dir
  let d := fs.isDir legacy_definitions_dir
  { meshesSource := if m then some legacy_meshes_dir else none
    meshesCompiled :=
      if m then ((fs.listdir legacy_meshes_dir).getD []).filter
        (fun x => strEndsWith x ".dae") else []
    meshesTargetDir := if m then some (config.output_path ++ "/meshes") else none
    audioTargetDir := if a then some (config.output_path ++ "/audio") else none
    audioCopied :=
      if a then ((fs.listdir legacy_audio_dir).getD []).filter
        (fun x => strEndsWith x "ogg") else []
    defsTargetDir := if d then some (config.output_path ++ "/data/definitions") else none
    defsCopied :=
      if d then ((fs.listdir legacy_definitions_dir).getD []).filter
        (fun x => strEndsWith x "xml") else [] }

/-- `ModBuilder._get_component_definition_file_path` (src/build_mod.py lines
182-193), over the component directory's listing: `none` models the `None`
returned (with an error report) for zero or more than one `.xml` file. -/
def get_component_definition_file_path (files : List String) : Option String :=
  let xml_files := files.filter (fun x => strEndsWith x ".xml")
  if xml_files.length > 1 then none
  else if xml_files.length == 0 then none
  else xml_files[0]?

/-- `ModBuilder._get_component_lua_file_path` (src/build_mod.py lines
195-206): no `.lua` files means no script; otherwise the name obtained from
the definition file by `str.replace(".xml", ".lua")` is attached exactly when
it is among the `.lua` files. -/
def get_component_lua_file_path (definition_file : String) (files : List String) :
    Option String :=
  let lua_files := files.filter (fun x => strEndsWith x ".lua")
  if lua_files.isEmpty then none
  else
    let filename := pyReplaceStr definition_file ".xml" ".lua"
    if lua_files.contains filename then some filename else none

/-- `_get_component_lua_file_path` as called from `_build_components` (line
259), where `definition_file` can be the `None` returned by the definition
lookup: Python computes `lua_files` and returns `None` when it is empty
before touching `definition_file`; with `None` and a nonempty `lua_files`,
`definition_file.replace(...)` raises `AttributeError`. -/
def get_component_lua_file_path_opt (definition_file : Option String)
    (files : List String) : Except String (Option String) :=
  match definition_file with
  | some d => Except.ok (get_component_lua_file_path d files)
  | none =>
    if (files.filter (fun x => strEndsWith x ".lua")).isEmpty then Except.ok none
    else Except.error "AttributeError"

/-- The task-creation loop of `ModBuilder._build_components` (src/build_mod.py
lines 248-265), per component directory with its file listing: each loop
iteration records `(directory, definition_file, lua_file)` and unconditionally
schedules a `_build_component` (bin) task for the entry — there is no check
for a `None` definition file.  A raised exception (the `AttributeError` above)
aborts the loop, so no later component is planned and nothing is awaited. -/
def build_components_plan (components : List (String × List String)) :
    Except String (List (String × Option String × Option String)) :=
  components.mapM (fun c => do
    let definition_file := get_component_definition_file_path c.2
    let lua_file ← get_component_lua_file_path_opt definition_file c.2
    pure (c.1, definition_file, lua_file))

/-- Outcome of one `ModBuilder._build_component` run (src/build_mod.py lines
226-237) under a tool oracle: the error report at line 235 fires exactly when
the `.bin` is absent; the copy at line 237 runs unconditionally and succeeds
exactly when the `.bin` exists (it raises `FileNotFoundError` otherwise). -/
structure ComponentOutcome where
  reportedFailure : Bool
  outputCopied : Bool
  copyRaised : Bool
deriving DecidableEq

/-- `ModBuilder._build_component` with the external compiler's behaviour as
an oracle: `binProduced` is whether the expected `.bin` exists after the tool
ran, `rc` the tool's exit code.  The source awaits the exit code and drops it
(line 230); no branch inspects it. -/
def build_component (binProduced : Bool) (rc : Int) : ComponentOutcome :=
  { reportedFailure := !binProduced
    outputCopied := binProduced
    copyRaised := !binProduced }

/-- The bin tasks of all components, each component judged from its own
oracle pair `(binProduced, rc)`. -/
def build_components_outcomes (comps : List (Bool × Int)) : List ComponentOutcome :=
  comps.map (fun c => build_component c.1 c.2)

/-- `build` (src/build_mod.py lines 331-338): after `asyncio.run(builder.run())`
completes it returns the literal `0`.  No data from the component outcomes
flows into the return value, which this definition records by ignoring its
argument. -/
def build_return (outcomes : List ComponentOutcome) : Int := 0

/-- `_compile_mod`'s return value (src/compile_mod.py lines 74-95): `0` when
the expected `.bin` exists afterwards, otherwise the tool's raw exit code. -/
def compile_mod_ret (bin_exists : Bool) (returncode : Int) : Int :=
  if bin_exists then 0 else returncode

/-- Oracle for the external tools invoked by src/compile_mod.py: whether
spawning the mesh/mod compiler subprocess raises (e.g. executable missing),
whether the expected `.bin` exists after the mod compiler ran, and the mod
compiler's exit code. -/
structure ToolBehavior where
  meshFault : Bool
  modFault : Bool
  bin_exists : Bool
  returncode : Int

/-- The body of `compile` inside the `try` block (src/compile_mod.py lines
100-124): list the definition file's directory (may raise), bucket the files
by suffix, run the mesh compiler per `.dae` (re-listing afterwards — the FS
snapshot is queried again), collect `.mesh` files, assemble the asset list
and run `_compile_mod`. -/
def compile_body (fs : FS) (tb : ToolBehavior) (definition : String) :
    Except String Int := do
  let path := dirname definition
  let files ← os_listdir fs path
  let lua_files := files.filter (fun x => strEndsWith x ".lua")
  let ogg_files := files.filter (fun x => strEndsWith x ".ogg")
  let dae_files := files.filter (fun x => strEndsWith x ".dae")
  let txtr_files := files.filter (fun x => strEndsWith x ".txtr")
  let files ←
    if dae_files.isEmpty then pure files
    else if tb.meshFault then Except.error "FileNotFoundError"
    else os_listdir fs path
  let mesh_files := files.filter (fun x => strEndsWith x ".mesh")
  let _asset_files := mesh_files ++ txtr_files ++ lua_files ++ ogg_files
  if tb.modFault then Except.error "FileNotFoundError"
  else pure (compile_mod_ret tb.bin_exists tb.returncode)

/-- `compile` (src/compile_mod.py lines 98-129): the whole body sits in a
`try` whose `except Exception` arm prints the error and sets the result
to `1`. -/
def compile (fs : FS) (tb : ToolBehavior) (definition : String) : Int :=
  match compile_body fs tb definition with
  | Except.ok n => n
  | Except.error _ => 1

/-- `STEAM_ROOT_PATH` of src/constants.py as a function of the user's home
directory (`Path.home()`): `PurePath(USER_HOME_PATH, ".steam/root")`. -/
def STEAM_ROOT_PATH (home : String) : String := home ++ "/.steam/root"

/-- `ROOT_STEAMAPPS_PATH` of src/env_config.py:
`PurePath(STEAM_ROOT_PATH, "steamapps")`. -/
def ROOT_STEAMAPPS_PATH (home : String) : String :=
  STEAM_ROOT_PATH home ++ "/steamapps"

/-- `ROOT_STORMWORKS_PATH` of src/env_config.py:
`PurePath(STEAM_ROOT_PATH, "steamapps/compatdata/573090")`. -/
def ROOT_STORMWORKS_PATH (home : String) : String :=
  STEAM_ROOT_PATH home ++ "/steamapps/compatdata/573090"

/-- `set_env` (src/env_config.py lines 13-19): copy `os.environ`, set the two
compatibility variables on the copy, return it.  The environment is a lookup
function; the two assignments touch distinct keys, every other key reads from
the original mapping. -/
def set_env (environ : String → Option String) (home : String) :
    String → Option String :=
  fun k =>
    if k = "STEAM_COMPAT_CLIENT_INSTALL_PATH" then some (ROOT_STEAMAPPS_PATH home)
    else if k = "STEAM_COMPAT_DATA_PATH" then some (ROOT_STORMWORKS_PATH home)
    else environ k

/-- Kinds of scheduled work in `_build_components`: component mesh compiles,
component lua transforms, and the per-component `_build_component` task. -/
inductive UKind
  | mesh
  | lua
  | binU
deriving DecidableEq

/-- One schedulable unit of `_build_components`, tagged with its owning
component directory. -/
structure BUnit where
  comp : String
  kind : UKind
  file : String
deriving DecidableEq

/-- The mesh tasks created by the loop of `_build_components` (lines 254-257):
one per `.dae` file of each component. -/
def mesh_units : List (String × List String) → List BUnit
  | [] => []
  | c :: rest =>
    (c.2.filter (fun x => strEndsWith x ".dae")).map (fun f => ⟨c.1, UKind.mesh, f⟩)
      ++ mesh_units rest

/-- The lua tasks created by the loop (lines 259-262): one per component whose
lua lookup yields a file. -/
def lua_units : List (String × List String) → List BUnit
  | [] => []
  | c :: rest =>
    (match get_component_lua_file_path_opt (get_component_definition_file_path c.2) c.2 with
     | Except.ok (some f) => [⟨c.1, UKind.lua, f⟩]
     | _ => []) ++ lua_units rest

/-- The bin tasks created by the loop (lines 264-265): one per component. -/
def bin_units : List (String × List String) → List BUnit
  | [] => []
  | c :: rest => ⟨c.1, UKind.binU, c.1⟩ :: bin_units rest

/-- The three sequential await blocks of `_build_components` (lines 267-280):
all mesh tasks are driven to completion, then all lua tasks, then all bin
tasks.  Units inside one phase run concurrently; a later phase begins only
after the previous phase has fully completed (the coroutines of a later phase
are not even started before its `as_completed` loop runs). -/
def build_components_phases (components : List (String × List String)) :
    List (List BUnit) :=
  [mesh_units components, lua_units components, bin_units components]

/-- Index of the first phase containing a unit. -/
def idxOfPhase (u : BUnit) : List (List BUnit) → Option Nat
  | [] => none
  | ph :: rest => if u ∈ ph then some 0 else (idxOfPhase u rest).map (fun n => n + 1)

/-- The phase a unit of `_build_components` runs in. -/
def phase_of (components : List (String × List String)) (u : BUnit) : Option Nat :=
  idxOfPhase u (build_components_phases components)

/-- `u` is forced to complete before `v` starts: `u` runs in a strictly
earlier phase, and every unit of an earlier phase completes before any unit
of a later phase begins. -/
def must_precede (components : List (String × List String)) (u v : BUnit) : Bool :=
  match phase_of components u, phase_of components v with
  | some i, some j => decide (i < j)
  | _, _ => false

/-- The internal steps of one `_build_component` task, in program order
(src/build_mod.py lines 226-237): copy the definition and audio files into
the scratch directory, invoke the binary compiler, copy the result out. -/
inductive BinStep
  | copyAssets
  | compileBin
  | copyToOutput
deriving DecidableEq

/-- `_build_component` runs its steps strictly in this order. -/
def build_component_steps : List BinStep :=
  [BinStep.copyAssets, BinStep.compileBin, BinStep.copyToOutput]

/-- Concrete filesystem for the C2 evaluation: `mod.xml` and `mod.png` exist
under `/proj`, the current directory exists, `/proj/data` does not. -/
def fs2 : FS :=
  { isFile := fun p => p == "/proj/mod.xml" || p == "/proj/mod.png"
    isDir := fun p => p == "."
    listdir := fun _ => none }

/-- Concrete filesystem for the C7 evaluation: the configured legacy meshes
directory `/custom/meshes` exists and holds one `.dae`; the fixed legacy
directories under `/proj/src/legacy` are all absent. -/
def fs7 : FS :=
  { isFile := fun _ => false
    isDir := fun p => p == "/custom/meshes"
    listdir := fun p => if p == "/custom/meshes" then some ["m.dae"] else none }

/-- Concrete config for the C7 evaluation: a legacy meshes directory is
configured. -/
def cfg7 : Config :=
  { project_path := "/proj"
    output_path := "/proj/build/mymod"
    build_name := "mymod"
    legacy_meshes_dir := some "/custom/meshes"
    legacy_audio_dir := none
    legacy_definitions_dir := none }

/-- Concrete component list for the C5 evaluation: `c1` has only a definition
file, `c2` additionally has a mesh source. -/
def components5 : List (String × List String) :=
  [("c1", ["a.xml"]), ("c2", ["b.xml", "m.dae"])]

/-- Concrete filesystem for the C9 witness: every listing raises. -/
def fs9 : FS :=
  { isFile := fun _ => false
    isDir := fun _ => false
    listdir := fun _ => none }

/-- Concrete tool oracle for the C9 witness. -/
def tb9 : ToolBehavior :=
  { meshFault := false, modFault := false, bin_exists := false, returncode := 0 }

/-- Concrete process environment for the C10 witness. -/
def env10 : String → Option String :=
  fun k => if k == "PATH" then some "/usr/bin" else none

/-! ## Theorems -/

/-- Claim C2: the orchestrator is supposed to verify that `mod.xml`, `mod.png`
and a `data` directory exist and fail fatally otherwise.  Evaluated on a
project that has `mod.xml` and `mod.png` but no `data` directory,
`_verify_paths` nevertheless passes, because line 92 of src/build_mod.py
tests `Path().is_dir()` — the current directory — instead of the computed
`data_path`.  The run proceeds with no fatal error. -/
theorem claim_C2_data_dir_check_bug :
    verify_paths fs2 "/proj" = true ∧ fs2.isDir "/proj/data" = false := by
  decide

/-- Claim C1: a component directory with zero or more than one `.xml` file is
supposed to be skipped while the build continues for other components.  The
classification itself does produce nothing (`none`), but the loop of
`_build_components` never checks for it: with a listing of two `.xml` files
and one `.lua` file the lua lookup receives `None` and raises
`AttributeError`, aborting the whole loop so that no other component is
planned either; and with a listing containing no `.xml` file at all the loop
still records a bin-task entry for the component (it is not skipped). -/
theorem claim_C1_skip_not_honored :
    get_component_definition_file_path ["a.xml", "b.xml", "a.lua"] = none ∧
    get_component_definition_file_path ["sound.ogg"] = none ∧
    build_components_plan [("comp1", ["a.xml", "b.xml", "a.lua"]), ("comp2", ["c.xml"])]
      = Except.error "AttributeError" ∧
    build_components_plan [("comp1", ["sound.ogg"]), ("comp2", ["c.xml"])]
      = Except.ok [("comp1", none, none), ("comp2", some "c.xml", none)] :=
  ⟨rfl, rfl, rfl, rfl⟩

/-- Claim C3: a build with a failed component is supposed to exit nonzero.
Evaluated on a build with one succeeded and one failed component (the second
tool ran with exit code 0 but left no `.bin`): the failure is reported and
the succeeded component's output was copied (partial output), yet `build`
returns the literal `0`; likewise the single-file compiler returns the tool's
exit code `0` for the failed compile. -/
theorem claim_C3_exit_status_zero_on_failure :
    build_return (build_components_outcomes [(true, 0), (false, 0)]) = 0 ∧
    (build_components_outcomes [(true, 0), (false, 0)]).map ComponentOutcome.reportedFailure
      = [false, true] ∧
    (build_components_outcomes [(true, 0), (false, 0)]).map ComponentOutcome.outputCopied
      = [true, false] ∧
    compile_mod_ret false 0 = 0 := by
  decide

/-- Claim C4: success of a component-binary compile is judged solely by the
existence of the expected `.bin` file: the outcome is independent of the
tool's exit code, a missing `.bin` is reported as failure and yields no
output copy even for exit code 0, a present `.bin` yields the output copy,
and the outcome recorded for component `i` depends only on component `i`'s
own data (other components proceed unaffected). -/
theorem claim_C4_bin_existence_sole_criterion :
    ∀ (b : Bool) (rc rc' : Int) (comps comps' : List (Bool × Int)) (i : Nat),
    build_component b rc = build_component b rc' ∧
    (build_component false rc).reportedFailure = true ∧
    (build_component false rc).outputCopied = false ∧
    (build_component true rc).outputCopied = true ∧
    (comps[i]? = comps'[i]? →
      (build_components_outcomes comps)[i]? = (build_components_outcomes comps')[i]?) := by
  intro b rc rc' comps comps' i
  refine ⟨rfl, rfl, rfl, rfl, fun h => ?_⟩
  simp only [build_components_outcomes, List.getElem?_map, h]

/-- Witness for C4 at a concrete input. -/
theorem claim_C4_bin_existence_sole_criterion_witness :
    (build_components_outcomes [(false, 0)])[0]? = (build_components_outcomes [(false, 0)])[0]? :=
  (claim_C4_bin_existence_sole_criterion false 0 7 [(false, 0)] [(false, 0)] 0).2.2.2.2 rfl

/-- Claim C8: clearing the scratch tree never raises, clearing a nonexistent
tree is a no-op returning the state unchanged, and clearing twice leaves the
same state as clearing once. -/
theorem claim_C8_clear_cache_idempotent :
    ∀ (isDir : String → Bool) (build_name : String),
    (∃ d, clear_build_cache isDir build_name = Except.ok d ∧
          clear_build_cache d build_name = Except.ok d) ∧
    (isDir (build_cache_path build_name) = false →
      clear_build_cache isDir build_name = Except.ok isDir) := by
  intro isDir build_name
  by_cases h : isDir (build_cache_path build_name)
  · refine ⟨⟨rmtree_state isDir (build_cache_path build_name), ?_, ?_⟩, fun hf => ?_⟩
    · simp [clear_build_cache, rmtree, h]
    · have hd : rmtree_state isDir (build_cache_path build_name)
          (build_cache_path build_name) = false := by
        simp [rmtree_state]
      simp [clear_build_cache, hd]
    · simp [h] at hf
  · refine ⟨⟨isDir, ?_, ?_⟩, fun _ => ?_⟩ <;> simp [clear_build_cache, h]

/-- Witness for C8 at a concrete input: no scratch tree exists, clearing is a
no-op. -/
theorem claim_C8_clear_cache_idempotent_witness :
    clear_build_cache (fun _ => false) "mymod" = Except.ok (fun _ => false) :=
  (claim_C8_clear_cache_idempotent (fun _ => false) "mymod").2 rfl

/-- Claim C9: the single-file compile entry point never propagates an
exception: when the `try`-block body raises (an `Except.error` here, e.g. the
directory listing failing) `compile` returns `1`, and otherwise it returns
the body's integer result. -/
theorem claim_C9_compile_catches_errors :
    ∀ (fs : FS) (tb : ToolBehavior) (definition : String),
    (∀ e, compile_body fs tb definition = Except.error e →
      compile fs tb definition = 1) ∧
    (∀ n, compile_body fs tb definition = Except.ok n →
      compile fs tb definition = n) := by
  intro fs tb definition
  constructor
  · intro e he
    simp [compile, he]
  · intro n hn
    simp [compile, hn]

/-- Witness for C9 at a concrete input: listing the definition file's
directory raises, `compile` returns `1`. -/
theorem claim_C9_compile_catches_errors_witness :
    compile fs9 tb9 "widget.xml" = 1 :=
  (claim_C9_compile_catches_errors fs9 tb9 "widget.xml").1 "FileNotFoundError" rfl

/-- Claim C10: `set_env` returns a copy of the environment in which exactly
`STEAM_COMPAT_CLIENT_INSTALL_PATH` and `STEAM_COMPAT_DATA_PATH` are set to
the derived runtime paths, and every other key reads unchanged from the
original mapping (which itself is never mutated: it is an input the result
merely consults). -/
theorem claim_C10_set_env :
    ∀ (environ : String → Option String) (home : String),
    set_env environ home "STEAM_COMPAT_CLIENT_INSTALL_PATH"
      = some (ROOT_STEAMAPPS_PATH home) ∧
    set_env environ home "STEAM_COMPAT_DATA_PATH"
      = some (ROOT_STORMWORKS_PATH home) ∧
    (∀ k, k ≠ "STEAM_COMPAT_CLIENT_INSTALL_PATH" → k ≠ "STEAM_COMPAT_DATA_PATH" →
      set_env environ home k = environ k) := by
  intro environ home
  refine ⟨rfl, ?_, fun k h1 h2 => ?_⟩
  · simp [set_env]
  · simp [set_env, h1, h2]

/-- Witness for C10 at a concrete input: an unrelated key is unchanged. -/
theorem claim_C10_set_env_witness :
    set_env env10 "/home/u" "PATH" = env10 "PATH" :=
  (claim_C10_set_env env10 "/home/u").2.2 "PATH" (by decide) (by decide)

theorem pyReplaceAux_fuel_irrel (old new : List Char) (hold : old ≠ []) :
    ∀ (f g : Nat) (s : List Char), s.length ≤ f → s.length ≤ g →
    pyReplaceAux old new f s = pyReplaceAux old new g s := by
  intro f
  induction f with
  | zero =>
    intro g s hf _
    have hs : s = [] := List.eq_nil_of_length_eq_zero (Nat.le_zero.mp hf)
    subst hs
    cases g <;> simp [pyReplaceAux]
  | succ f ih =>
    intro g s hf hg
    cases s with
    | nil => cases g <;> simp [pyReplaceAux]
    | cons c rest =>
      cases g with
      | zero => simp at hg
      | succ g =>
        have hop : 0 < old.length := List.length_pos.mpr hold
        simp only [List.length_cons, Nat.succ_le_succ_iff] at hf hg
        cases hpre : old.isPrefixOf (c :: rest) with
        | true =>
          simp only [pyReplaceAux, hpre, if_true]
          congr 1
          apply ih
          · simp only [List.length_drop, List.length_cons]; omega
          · simp only [List.length_drop, List.length_cons]; omega
        | false =>
          simp only [pyReplaceAux, hpre, Bool.false_eq_true, if_false]
          congr 1
          exact ih g rest hf hg

theorem pyReplaceL_cons_skip (old new : List Char) (o : Char) (os : List Char)
    (hold : old = o :: os) (c : Char) (hc : c ≠ o) (rest : List Char) :
    pyReplaceL (c :: rest) old new = c :: pyReplaceL rest old new := by
  subst hold
  have hoc : (o == c) = false := beq_eq_false_iff_ne.mpr (fun h => hc h.symm)
  have hpre : (o :: os).isPrefixOf (c :: rest) = false := by
    simp [List.isPrefixOf, hoc]
  show pyReplaceAux (o :: os) new (c :: rest).length (c :: rest)
      = c :: pyReplaceAux (o :: os) new rest.length rest
  simp only [List.length_cons, pyReplaceAux, hpre, Bool.false_eq_true, if_false]

theorem pyReplaceL_append_of_not_mem (old new : List Char) (o : Char) (os : List Char)
    (hold : old = o :: os) :
    ∀ (b s : List Char), o ∉ b →
    pyReplaceL (b ++ s) old new = b ++ pyReplaceL s old new := by
  intro b
  induction b with
  | nil => intro s _; simp
  | cons c b ih =>
    intro s hb
    have hc : c ≠ o := by
      intro h
      apply hb
      rw [← h]
      exact List.mem_cons_self c b
    rw [List.cons_append, pyReplaceL_cons_skip old new o os hold c hc (b ++ s),
      ih s (fun h => hb (List.mem_cons_of_mem c h)), List.cons_append]

theorem pyReplaceStr_append_xml (b : String) (hb : '.' ∉ b.toList) :
    pyReplaceStr (b ++ ".xml") ".xml" ".lua" = b ++ ".lua" := by
  unfold pyReplaceStr
  rw [show (b ++ ".xml").toList = b.toList ++ ".xml".toList from rfl]
  rw [pyReplaceL_append_of_not_mem ".xml".toList ".lua".toList '.' ['x', 'm', 'l'] rfl
    b.toList ".xml".toList hb]
  rw [show pyReplaceL ".xml".toList ".xml".toList ".lua".toList = ".lua".toList from rfl]
  rfl

theorem rfind_char_append_ext (b ext : List Char) (hx : ext = ['.', 'x', 'm', 'l']) :
    rfind_char '.' (b ++ ext) = some b.length := by
  subst hx
  unfold rfind_char
  rw [List.reverse_append]
  rw [show (['.', 'x', 'm', 'l'] : List Char).reverse = ['l', 'm', 'x', '.'] from rfl]
  rw [show findIdxC '.' (['l', 'm', 'x', '.'] ++ b.reverse) = some 3 from rfl]
  simp [List.length_append]

theorem base_name_append_xml (b : String) : base_name (b ++ ".xml") = b := by
  unfold base_name
  rw [show (b ++ ".xml").toList = b.toList ++ ['.', 'x', 'm', 'l'] from rfl]
  rw [rfind_char_append_ext b.toList ['.', 'x', 'm', 'l'] rfl]
  show String.mk ((b.toList ++ ['.', 'x', 'm', 'l']).take b.toList.length) = b
  rw [List.take_left]
  rfl

/-- Claim C6 counterexample: in a directory holding exactly the definition
file `a.xml.xml` and the script `a.xml.lua`, the script's base name equals
the definition's base name (`a.xml`), so the claim demands attachment — but
the code computes `"a.xml.xml".replace(".xml", ".lua") = "a.lua.lua"`
(Python `str.replace` replaces every occurrence) and attaches nothing. -/
theorem claim_C6_counterexample :
    get_component_definition_file_path ["a.xml.xml", "a.xml.lua"] = some "a.xml.xml" ∧
    strEndsWith "a.xml.lua" ".lua" = true ∧
    base_name "a.xml.lua" = base_name "a.xml.xml" ∧
    pyReplaceStr "a.xml.xml" ".xml" ".lua" = "a.lua.lua" ∧
    get_component_lua_file_path "a.xml.xml" ["a.xml.xml", "a.xml.lua"] = none := by
  decide

/-- Claim C6 as amended: the code attaches the `.lua` file whose name is the
definition file's name with every occurrence of `".xml"` replaced by
`".lua"`; for a definition file `b ++ ".xml"` whose base name `b` contains no
further dot this coincides with the claimed base-name rule — a `.lua` file
`f` is attached iff `f = b ++ ".lua"` (i.e. its base name equals the
definition's base name `b`) and `f` is among the directory's `.lua` files;
with no match the component simply has no script (`none`, no error). -/
theorem claim_C6_lua_attachment :
    ∀ (b f : String) (files : List String), '.' ∉ b.toList →
    (get_component_lua_file_path (b ++ ".xml") files = some f ↔
      f = b ++ ".lua" ∧ f ∈ files ∧ strEndsWith f ".lua" = true) ∧
    base_name (b ++ ".xml") = b := by
  intro b f files hb
  refine ⟨?_, base_name_append_xml b⟩
  unfold get_component_lua_file_path
  rw [pyReplaceStr_append_xml b hb]
  by_cases hL : (files.filter (fun x => strEndsWith x ".lua")).isEmpty
  · simp only [hL, if_true]
    constructor
    · intro h; cases h
    · rintro ⟨h1, h2, h3⟩
      have hmem : f ∈ files.filter (fun x => strEndsWith x ".lua") :=
        List.mem_filter.mpr ⟨h2, h3⟩
      rw [List.isEmpty_iff.mp hL] at hmem
      cases hmem
  · simp only [hL, Bool.false_eq_true, if_false]
    by_cases hc : (files.filter (fun x => strEndsWith x ".lua")).contains (b ++ ".lua")
    · simp only [hc, if_true, Option.some_inj]
      constructor
      · intro h
        subst h
        have hmem : (b ++ ".lua") ∈ files.filter (fun x => strEndsWith x ".lua") :=
          List.mem_of_elem_eq_true hc
        have := List.mem_filter.mp hmem
        exact ⟨rfl, this.1, this.2⟩
      · intro h
        exact h.1.symm
    · simp only [hc, Bool.false_eq_true, if_false]
      constructor
      · intro h; cases h
      · rintro ⟨h1, h2, h3⟩
        subst h1
        exact absurd (List.elem_eq_true_of_mem (List.mem_filter.mpr ⟨h2, h3⟩)) hc

/-- Witness for the amended C6 at a concrete input: `widget.lua` is attached
to the component defined by `widget.xml`. -/
theorem claim_C6_lua_attachment_witness :
    get_component_lua_file_path ("widget" ++ ".xml") ["widget.xml", "widget.lua"]
      = some ("widget" ++ ".lua") :=
  ((claim_C6_lua_attachment "widget" ("widget" ++ ".lua")
    ["widget.xml", "widget.lua"] (by decide)).1).mpr ⟨rfl, by decide, by decide⟩

theorem mem_mesh_units :
    ∀ (comps : List (String × List String)) (c : String × List String) (f : String),
    c ∈ comps → f ∈ c.2 → strEndsWith f ".dae" = true →
    (⟨c.1, UKind.mesh, f⟩ : BUnit) ∈ mesh_units comps := by
  intro comps
  induction comps with
  | nil => intro c f hc; cases hc
  | cons a rest ih =>
    intro c f hc hf hd
    rcases List.mem_cons.mp hc with h | h
    · subst h
      exact List.mem_append_left _
        (List.mem_map.mpr ⟨f, List.mem_filter.mpr ⟨hf, hd⟩, rfl⟩)
    · exact List.mem_append_right _ (ih c f h hf hd)

theorem mesh_units_kind :
    ∀ (comps : List (String × List String)) (u : BUnit),
    u ∈ mesh_units comps → u.kind = UKind.mesh := by
  intro comps
  induction comps with
  | nil => intro u hu; cases hu
  | cons a rest ih =>
    intro u hu
    rcases List.mem_append.mp hu with h | h
    · rcases List.mem_map.mp h with ⟨f, _, hfu⟩
      rw [← hfu]
    · exact ih u h

theorem mem_lua_units :
    ∀ (comps : List (String × List String)) (c : String × List String) (f : String),
    c ∈ comps →
    get_component_lua_file_path_opt (get_component_definition_file_path c.2) c.2
      = Except.ok (some f) →
    (⟨c.1, UKind.lua, f⟩ : BUnit) ∈ lua_units comps := by
  intro comps
  induction comps with
  | nil => intro c f hc; cases hc
  | cons a rest ih =>
    intro c f hc hl
    rcases List.mem_cons.mp hc with h | h
    · subst h
      apply List.mem_append_left
      rw [hl]
      exact List.mem_singleton.mpr rfl
    · exact List.mem_append_right _ (ih c f h hl)

theorem lua_units_kind :
    ∀ (comps : List (String × List String)) (u : BUnit),
    u ∈ lua_units comps → u.kind = UKind.lua := by
  intro comps
  induction comps with
  | nil => intro u hu; cases hu
  | cons a rest ih =>
    intro u hu
    rcases List.mem_append.mp hu with h | h
    · revert h
      cases get_component_lua_file_path_opt (get_component_definition_file_path a.2) a.2 with
      | error e => intro h; cases h
      | ok o =>
        cases o with
        | none => intro h; cases h
        | some f =>
          intro h
          rw [List.mem_singleton.mp h]
    · exact ih u h

theorem mem_bin_units :
    ∀ (comps : List (String × List String)) (c : String × List String),
    c ∈ comps → (⟨c.1, UKind.binU, c.1⟩ : BUnit) ∈ bin_units comps := by
  intro comps
  induction comps with
  | nil => intro c hc; cases hc
  | cons a rest ih =>
    intro c hc
    rcases List.mem_cons.mp hc with h | h
    · subst h; exact List.mem_cons_self _ _
    · exact List.mem_cons_of_mem _ (ih c h)

theorem phase_of_mesh_unit (comps : List (String × List String))
    (c : String × List String) (f : String) (hc : c ∈ comps) (hf : f ∈ c.2)
    (hd : strEndsWith f ".dae" = true) :
    phase_of comps ⟨c.1, UKind.mesh, f⟩ = some 0 := by
  unfold phase_of build_components_phases
  rw [idxOfPhase, if_pos (mem_mesh_units comps c f hc hf hd)]

theorem phase_of_lua_unit (comps : List (String × List String))
    (c : String × List String) (f : String) (hc : c ∈ comps)
    (hl : get_component_lua_file_path_opt (get_component_definition_file_path c.2) c.2
      = Except.ok (some f)) :
    phase_of comps ⟨c.1, UKind.lua, f⟩ = some 1 := by
  have h0 : (⟨c.1, UKind.lua, f⟩ : BUnit) ∉ mesh_units comps := by
    intro h
    cases mesh_units_kind comps _ h
  unfold phase_of build_components_phases
  rw [idxOfPhase, if_neg h0, idxOfPhase, if_pos (mem_lua_units comps c f hc hl)]
  rfl

theorem phase_of_bin_unit (comps : List (String × List String))
    (c : String × List String) (hc : c ∈ comps) :
    phase_of comps ⟨c.1, UKind.binU, c.1⟩ = some 2 := by
  have h0 : (⟨c.1, UKind.binU, c.1⟩ : BUnit) ∉ mesh_units comps := by
    intro h
    cases mesh_units_kind comps _ h
  have h1 : (⟨c.1, UKind.binU, c.1⟩ : BUnit) ∉ lua_units comps := by
    intro h
    cases lua_units_kind comps _ h
  unfold phase_of build_components_phases
  rw [idxOfPhase, if_neg h0, idxOfPhase, if_neg h1, idxOfPhase,
    if_pos (mem_bin_units comps c hc)]
  rfl

/-- Claim C5 counterexample: inter-component ordering IS imposed.  With the
two components of `components5`, the mesh compilation `m.dae` of component
`c2` is forced (by the sequential await blocks of `_build_components`) to
complete before the binary-compile task of the different component `c1`
starts. -/
theorem claim_C5_counterexample :
    must_precede components5 ⟨"c2", UKind.mesh, "m.dae"⟩ ⟨"c1", UKind.binU, "c1"⟩ = true ∧
    ("c2" : String) ≠ "c1" := by
  decide

/-- Claim C5 as amended: within each component the binary-compile task does
start only after that component's mesh compilations and script
transformation complete (and the definition/audio copies happen inside the
binary task, strictly before the compiler invocation); but this is obtained
through global phase barriers — every mesh unit and every lua unit of every
component must precede every component's binary task — so ordering across
components is imposed as well. -/
theorem claim_C5_phase_ordering :
    ∀ (components : List (String × List String)) (c c' : String × List String) (f : String),
    c ∈ components → c' ∈ components →
    ((f ∈ c.2 → strEndsWith f ".dae" = true →
      must_precede components ⟨c.1, UKind.mesh, f⟩ ⟨c'.1, UKind.binU, c'.1⟩ = true) ∧
     (get_component_lua_file_path_opt (get_component_definition_file_path c.2) c.2
        = Except.ok (some f) →
      must_precede components ⟨c.1, UKind.lua, f⟩ ⟨c'.1, UKind.binU, c'.1⟩ = true) ∧
     build_component_steps.indexOf BinStep.copyAssets
       < build_component_steps.indexOf BinStep.compileBin ∧
     build_component_steps.indexOf BinStep.compileBin
       < build_component_steps.indexOf BinStep.copyToOutput) := by
  intro components c c' f hc hc'
  refine ⟨fun hf hd => ?_, fun hl => ?_, by decide, by decide⟩
  · unfold must_precede
    rw [phase_of_mesh_unit components c f hc hf hd, phase_of_bin_unit components c' hc']
    rfl
  · unfold must_precede
    rw [phase_of_lua_unit components c f hc hl, phase_of_bin_unit components c' hc']
    rfl

/-- Witness for the amended C5 at a concrete input: within component `c2`,
its mesh unit precedes its own binary task. -/
theorem claim_C5_phase_ordering_witness :
    must_precede components5 ⟨"c2", UKind.mesh, "m.dae"⟩ ⟨"c2", UKind.binU, "c2"⟩ = true :=
  (claim_C5_phase_ordering components5 ("c2", ["b.xml", "m.dae"])
    ("c2", ["b.xml", "m.dae"]) "m.dae" (by decide) (by decide)).1 (by decide) (by decide)

/-- Claim C7 counterexample: a legacy meshes directory is configured
(`cfg7.legacy_meshes_dir = some "/custom/meshes"`), exists on disk and holds
a `.dae` file, yet `_build_legacy` compiles nothing and creates no meshes
output directory, because it only ever looks at the fixed directory
`<project>/src/legacy/meshes` (absent here) and never reads the configured
setting. -/
theorem claim_C7_counterexample :
    (build_legacy fs7 cfg7).meshesSource = none ∧
    (build_legacy fs7 cfg7).meshesCompiled = [] ∧
    (build_legacy fs7 cfg7).meshesTargetDir = none ∧
    cfg7.legacy_meshes_dir = some "/custom/meshes" ∧
    fs7.isDir "/custom/meshes" = true ∧
    fs7.listdir "/custom/meshes" = some ["m.dae"] := by
  decide

/-- Claim C7 as amended: legacy asset handling ignores the configured legacy
directory settings entirely (the result is invariant under changing them)
and always keys off the fixed directories
`<project>/src/legacy/{meshes,audio,definitions}`; each category is handled
independently and skipped silently — no output subdirectory, no copies, no
error — when its fixed source directory is absent, and processed (output
directory plus suffix-filtered copies) when it is present. -/
theorem claim_C7_legacy_fixed_dirs :
    ∀ (fs : FS) (config : Config) (m a d : Option String),
    build_legacy fs
        ⟨config.project_path, config.output_path, config.build_name, m, a, d⟩
      = build_legacy fs config ∧
    (fs.isDir (config.project_path ++ "/src/legacy/meshes") = false →
      (build_legacy fs config).meshesSource = none ∧
      (build_legacy fs config).meshesTargetDir = none ∧
      (build_legacy fs config).meshesCompiled = []) ∧
    (fs.isDir (config.project_path ++ "/src/legacy/audio") = false →
      (build_legacy fs config).audioTargetDir = none ∧
      (build_legacy fs config).audioCopied = []) ∧
    (fs.isDir (config.project_path ++ "/src/legacy/definitions") = false →
      (build_legacy fs config).defsTargetDir = none ∧
      (build_legacy fs config).defsCopied = []) ∧
    (fs.isDir (config.project_path ++ "/src/legacy/audio") = true →
      (build_legacy fs config).audioTargetDir = some (config.output_path ++ "/audio") ∧
      (build_legacy fs config).audioCopied =
        ((fs.listdir (config.project_path ++ "/src/legacy/audio")).getD []).filter
          (fun x => strEndsWith x "ogg")) := by
  intro fs config m a d
  refine ⟨rfl, fun h => ?_, fun h => ?_, fun h => ?_, fun h => ?_⟩ <;>
    simp [build_legacy, h]

/-- Witness for the amended C7 at a concrete input: the fixed legacy audio
directory is absent, so the audio category is skipped with no output
directory and no copies. -/
theorem claim_C7_legacy_fixed_dirs_witness :
    (build_legacy fs7 cfg7).audioTargetDir = none ∧ (build_legacy fs7 cfg7).audioCopied = [] :=
  (claim_C7_legacy_fixed_dirs fs7 cfg7 none none none).2.2.1 (by decide)
